import Mathlib

/-!
Shallow embedding of the OpenQube Gaussian basis-set evaluation engine
(`src/gaussianset.cpp`).  C++ `double` arithmetic is modelled by `ℝ`;
`std::vector` by `List`; Eigen's `MatrixXd` by a size-carrying total
function.  Out-of-range container reads (undefined behaviour in C++) are
modelled by `List.getD` with an explicit default.  Stateful member
functions become functions from the old `GaussianSet` value to the new
one; the `qDebug` diagnostic channel is modelled by a count of emitted
lines where a claim mentions it.
-/

namespace OpenQube

/-- Angular-momentum types of a shell, the `orbital` enumeration used by
`GaussianSet` (its declaring header is not under `src/`; the constructor
set is the one the spec fixes and `gaussianset.cpp` switches over). -/
inductive orbital
  | S
  | SP
  | P
  | D
  | D5
  | F
  | F7
  | G
  | G9
  | H
  | H11
  | I
  | I13
deriving DecidableEq, Repr

/-- Eigen `Vector3d`: three doubles. -/
structure Vector3d where
  x : ℝ
  y : ℝ
  z : ℝ

/-- Componentwise difference, Eigen's `operator-` on `Vector3d`. -/
def Vector3d.sub (a b : Vector3d) : Vector3d :=
  ⟨a.x - b.x, a.y - b.y, a.z - b.z⟩

/-- Scalar multiple, Eigen's `double * Vector3d`. -/
def Vector3d.smul (k : ℝ) (v : Vector3d) : Vector3d :=
  ⟨k * v.x, k * v.y, k * v.z⟩

/-- Eigen's `squaredNorm` on `Vector3d`. -/
def Vector3d.squaredNorm (v : Vector3d) : ℝ :=
  v.x * v.x + v.y * v.y + v.z * v.z

/-- Modelled from the spec: `molecule.h` is not under `src/`.  An atom is
an atomic number plus a position (§3); only the position is read by the
evaluation code. -/
structure Atom where
  pos : Vector3d
  atomicNumber : ℤ

/-- Modelled from the spec: `Molecule::atomPos(i)` (§4.1).  An
out-of-range index is undefined behaviour in C++; it is modelled by a
default atom at the origin. -/
def atomPos (mol : List Atom) (i : ℕ) : Vector3d :=
  (mol.getD i ⟨⟨0, 0, 0⟩, 0⟩).pos

/-- Eigen `MatrixXd`: a size-carrying total function.  `entry i j` models
`coeffRef(i, j)`; an out-of-range access is undefined behaviour in C++
and simply reads the function here. -/
structure MatrixXd where
  rows : ℕ
  cols : ℕ
  entry : ℕ → ℕ → ℝ

/-- A default-constructed (0 × 0) `MatrixXd`; its entry function is the
all-zero one the model starts from. -/
def MatrixXd.empty : MatrixXd :=
  ⟨0, 0, fun _ _ => 0⟩

/-- Eigen `resize(r, c)`: when the size is unchanged it is a no-op that
keeps every coefficient; when the size changes the coefficients are left
uninitialized.  The model keeps the old entry function in both cases —
for the unchanged-size case this is exactly Eigen's documented
behaviour, for a genuine resize it is one admissible instantiation of
"uninitialized" (the theorems below rely only on the unchanged case,
plus the all-zero function of a default-constructed matrix). -/
def MatrixXd.resize (m : MatrixXd) (r c : ℕ) : MatrixXd :=
  ⟨r, c, m.entry⟩

/-- The member state of `GaussianSet` (the declaring header is not under
`src/`; each field is named and typed after its uses in
`gaussianset.cpp`).  `m_molecule` is the embedded `Molecule`. -/
structure GaussianSet where
  m_numMOs : ℕ
  m_molecule : List Atom
  m_symmetry : List orbital
  m_atomIndices : List ℕ
  m_moIndices : List ℕ
  m_gtoIndices : List ℕ
  m_cIndices : List ℕ
  m_gtoA : List ℝ
  m_gtoC : List ℝ
  m_gtoCN : List ℝ
  m_moMatrix : MatrixXd
  m_density : MatrixXd
  m_numAtoms : ℕ
  m_init : Bool

/-- The `GaussianSet()` constructor: `m_numMOs(0), m_numAtoms(0),
m_init(false)` with every container empty and the matrices
default-constructed. -/
def GaussianSet.new : GaussianSet :=
  ⟨0, [], [], [], [], [], [], [], [], [], MatrixXd.empty, MatrixXd.empty, 0, false⟩

/-- `GaussianSet::addAtom`: clears `m_init` and appends the atom to the
embedded molecule (the returned index is the atom's position and is not
modelled separately). -/
def addAtom (gs : GaussianSet) (pos : Vector3d) (atomicNumber : ℤ) : GaussianSet :=
  { gs with
    m_init := false
    m_molecule := gs.m_molecule ++ [⟨pos, atomicNumber⟩] }

/-- `GaussianSet::addBasis`: bumps `m_numMOs` by the component count of
the type (the switch adds nothing for the types it does not list),
clears `m_init`, and records the shell's type and atom index. -/
def addBasis (gs : GaussianSet) (atom : ℕ) (type : orbital) : GaussianSet :=
  { gs with
    m_numMOs := gs.m_numMOs +
      (match type with
       | orbital.S => 1
       | orbital.P => 3
       | orbital.SP => 4
       | orbital.D => 6
       | orbital.D5 => 5
       | orbital.F => 8
       | orbital.F7 => 7
       | _ => 0)
    m_init := false
    m_symmetry := gs.m_symmetry ++ [type]
    m_atomIndices := gs.m_atomIndices ++ [atom] }

/-- `GaussianSet::addGTO(unsigned, c, a)`: when fewer GTO start indices
than shells are recorded, pushes `m_gtoA.size()` as the new shell's
first-primitive index, then appends the exponent and contraction
coefficient.  It does not touch `m_init`. -/
def addGTO (gs : GaussianSet) (c a : ℝ) : GaussianSet :=
  let gs' :=
    if gs.m_gtoIndices.length < gs.m_atomIndices.length then
      { gs with m_gtoIndices := gs.m_gtoIndices ++ [gs.m_gtoA.length] }
    else gs
  { gs' with
    m_gtoA := gs'.m_gtoA ++ [a]
    m_gtoC := gs'.m_gtoC ++ [c] }

/-- `GaussianSet::addMOs`: clears `m_init`, resizes the MO matrix to
`m_numMOs × m_numMOs` and fills `columns = MOs.size() / m_numMOs`
columns column-major from the flat input. -/
def addMOs (gs : GaussianSet) (MOs : List ℝ) : GaussianSet :=
  let columns := MOs.length / gs.m_numMOs
  let m := gs.m_moMatrix.resize gs.m_numMOs gs.m_numMOs
  { gs with
    m_init := false
    m_moMatrix :=
      ⟨m.rows, m.cols, fun i j =>
        if i < gs.m_numMOs ∧ j < columns then MOs.getD (i + j * gs.m_numMOs) 0
        else m.entry i j⟩ }

/-- `GaussianSet::addMO(double)`: a stub that only clears `m_init`. -/
def addMO (gs : GaussianSet) (_v : ℝ) : GaussianSet :=
  { gs with m_init := false }

/-- `GaussianSet::setDensityMatrix`: resizes `m_density` to the input's
shape and copies it; always returns true.  It does not touch
`m_init`. -/
def setDensityMatrix (gs : GaussianSet) (m : MatrixXd) : GaussianSet × Bool :=
  ({ gs with m_density := ⟨m.rows, m.cols, m.entry⟩ }, true)

/-- `GaussianSet::numMOs()`: returns `m_moMatrix.rows()`, not
`m_numMOs`. -/
def GaussianSet.numMOs (gs : GaussianSet) : ℕ :=
  gs.m_moMatrix.rows

/-- `GaussianSet::isSmall`: true iff the value lies strictly between
`-1e-20` and `1e-20` (a `bool` in the source). -/
def isSmall (val : ℝ) : Prop :=
  -1e-20 < val ∧ val < 1e-20

open Classical

/-- The constant `BOHR_TO_ANGSTROM` of `gaussianset.cpp`. -/
def BOHR_TO_ANGSTROM : ℝ := 0.529177249

/-- The constant `ANGSTROM_TO_BOHR = 1.0 / BOHR_TO_ANGSTROM`. -/
noncomputable def ANGSTROM_TO_BOHR : ℝ := 1.0 / BOHR_TO_ANGSTROM

/-- Accumulator of the shell loop in `GaussianSet::initCalculation`:
`indexMO`, the `m_moIndices`, `m_cIndices` and `m_gtoCN` arrays being
built, and the count of diagnostic lines emitted so far.  The local
variable `skip` needs no field: the unhandled cases of the switch have
no `break`, so control entering at any of them runs through every later
assignment and the value read is always the last one, 13 (see
`initShell`). -/
structure InitAcc where
  indexMO : ℕ
  moIndices : List ℕ
  cIndices : List ℕ
  gtoCN : List ℝ
  diag : ℕ

/-- One iteration of the shell loop of `GaussianSet::initCalculation`.
`gi` is `m_gtoIndices` with the sentinel already appended; the loop over
`j ∈ [gi[i], gi[i+1])` becomes a fold over that range, each `push_back`
an append.  The `F` through `I13` cases fall through (no `break`
between them), so for each of those types the code reserves
`skip = 13` MO columns, pushes no normalized coefficients and emits one
diagnostic.  The switch has no `SP` case, so `SP` reaches `default`:
diagnostic only, and the `m_moIndices` slot keeps the value `resize`
gave it (the previous entry, or 0 for a fresh slot). -/
noncomputable def initShell (gs : GaussianSet) (gi : List ℕ) (i : ℕ) (acc : InitAcc) : InitAcc :=
  let lo := gi.getD i 0
  let hi := gi.getD (i + 1) 0
  let prims := List.range' lo (hi - lo)
  match gs.m_symmetry.getD i orbital.SP with
  | orbital.S =>
    { indexMO := acc.indexMO + 1
      moIndices := acc.moIndices ++ [acc.indexMO]
      cIndices := acc.cIndices ++ [acc.gtoCN.length]
      gtoCN := prims.foldl (fun cn j =>
        cn ++ [gs.m_gtoC.getD j 0 * gs.m_gtoA.getD j 0 ^ (0.75 : ℝ) * 0.71270547]) acc.gtoCN
      diag := acc.diag }
  | orbital.P =>
    { indexMO := acc.indexMO + 3
      moIndices := acc.moIndices ++ [acc.indexMO]
      cIndices := acc.cIndices ++ [acc.gtoCN.length]
      gtoCN := prims.foldl (fun cn j =>
        let p := gs.m_gtoC.getD j 0 * gs.m_gtoA.getD j 0 ^ (1.25 : ℝ) * 1.425410941
        cn ++ [p, p, p]) acc.gtoCN
      diag := acc.diag }
  | orbital.D =>
    { indexMO := acc.indexMO + 6
      moIndices := acc.moIndices ++ [acc.indexMO]
      cIndices := acc.cIndices ++ [acc.gtoCN.length]
      gtoCN := prims.foldl (fun cn j =>
        let d1 := gs.m_gtoC.getD j 0 * gs.m_gtoA.getD j 0 ^ (1.75 : ℝ) * 1.645922781
        let d2 := gs.m_gtoC.getD j 0 * gs.m_gtoA.getD j 0 ^ (1.75 : ℝ) * 2.850821881
        cn ++ [d1, d1, d1, d2, d2, d2]) acc.gtoCN
      diag := acc.diag }
  | orbital.D5 =>
    { indexMO := acc.indexMO + 5
      moIndices := acc.moIndices ++ [acc.indexMO]
      cIndices := acc.cIndices ++ [acc.gtoCN.length]
      gtoCN := prims.foldl (fun cn j =>
        let c := gs.m_gtoC.getD j 0
        let a := gs.m_gtoA.getD j 0
        let d0c := c * (2048 * a ^ (7 : ℝ) / (9 * Real.pi * Real.pi * Real.pi)) ^ (0.25 : ℝ)
        let d1c := c * (2048 * a ^ (7 : ℝ) / (Real.pi * Real.pi * Real.pi)) ^ (0.25 : ℝ)
        let d2c := c * (128 * a ^ (7 : ℝ) / (Real.pi * Real.pi * Real.pi)) ^ (0.25 : ℝ)
        cn ++ [d0c, d1c, d1c, d2c, d1c]) acc.gtoCN
      diag := acc.diag }
  | orbital.F | orbital.F7 | orbital.G | orbital.G9
  | orbital.H | orbital.H11 | orbital.I | orbital.I13 =>
    { indexMO := acc.indexMO + 13
      moIndices := acc.moIndices ++ [acc.indexMO]
      cIndices := acc.cIndices ++ [acc.gtoCN.length]
      gtoCN := acc.gtoCN
      diag := acc.diag + 1 }
  | orbital.SP =>
    { acc with
      moIndices := acc.moIndices ++ [gs.m_moIndices.getD i 0]
      diag := acc.diag + 1 }

/-- `GaussianSet::initCalculation` together with the number of
diagnostic lines it emits.  When `m_init` is set it returns at once;
otherwise it records the atom count, appends the sentinel to
`m_gtoIndices`, clears `m_gtoCN` (but not `m_cIndices`, which keeps
growing) and runs the shell loop, finally setting `m_init`. -/
noncomputable def initCalculation (gs : GaussianSet) : GaussianSet × ℕ :=
  if gs.m_init then (gs, 0)
  else
    let gi := gs.m_gtoIndices ++ [gs.m_gtoA.length]
    let acc := (List.range gs.m_symmetry.length).foldl
      (fun a i => initShell gs gi i a)
      ⟨0, [], gs.m_cIndices, [], 0⟩
    ({ gs with
        m_numAtoms := gs.m_molecule.length
        m_gtoIndices := gi
        m_moIndices := acc.moIndices
        m_cIndices := acc.cIndices
        m_gtoCN := acc.gtoCN
        m_init := true }, acc.diag)

/-- The primitive loop shared by the two `pointS` overloads: sum of
`m_gtoCN[cIndex++] * exp(-m_gtoA[i] * dr2)` over the shell's
primitives. -/
noncomputable def shellSumS (set : GaussianSet) (basis : ℕ) (dr2 : ℝ) : ℝ :=
  let lo := set.m_gtoIndices.getD basis 0
  let hi := set.m_gtoIndices.getD (basis + 1) 0
  let c0 := set.m_cIndices.getD basis 0
  (List.range (hi - lo)).foldl
    (fun tmp k =>
      tmp + set.m_gtoCN.getD (c0 + k) 0 *
        Real.exp ((-set.m_gtoA.getD (lo + k) 0) * dr2))
    0

/-- MO-mode `GaussianSet::pointS`: the small-coefficient shortcut, then
the primitive sum times the shell's single MO coefficient. -/
noncomputable def pointS (set : GaussianSet) (moIndex : ℕ) (dr2 : ℝ) (indexMO : ℕ) : ℝ :=
  if isSmall (set.m_moMatrix.entry (set.m_moIndices.getD moIndex 0) indexMO) then 0
  else
    shellSumS set moIndex dr2 *
      set.m_moMatrix.entry (set.m_moIndices.getD moIndex 0) indexMO

/-- The x/y/z accumulators of the MO-mode `pointP` loop (the deltas are
applied inside the loop in this overload). -/
noncomputable def shellSumP (set : GaussianSet) (basis : ℕ) (delta : Vector3d) (dr2 : ℝ) :
    ℝ × ℝ × ℝ :=
  let lo := set.m_gtoIndices.getD basis 0
  let hi := set.m_gtoIndices.getD (basis + 1) 0
  let c0 := set.m_cIndices.getD basis 0
  (List.range (hi - lo)).foldl
    (fun a k =>
      let tmpGTO := Real.exp ((-set.m_gtoA.getD (lo + k) 0) * dr2)
      (a.1 + set.m_gtoCN.getD (c0 + 3 * k) 0 * delta.x * tmpGTO,
       a.2.1 + set.m_gtoCN.getD (c0 + 3 * k + 1) 0 * delta.y * tmpGTO,
       a.2.2 + set.m_gtoCN.getD (c0 + 3 * k + 2) 0 * delta.z * tmpGTO))
    (0, 0, 0)

/-- MO-mode `GaussianSet::pointP`: `Px*x + Py*y + Pz*z`. -/
noncomputable def pointP (set : GaussianSet) (moIndex : ℕ) (delta : Vector3d) (dr2 : ℝ)
    (indexMO : ℕ) : ℝ :=
  let baseIndex := set.m_moIndices.getD moIndex 0
  let a := shellSumP set moIndex delta dr2
  set.m_moMatrix.entry baseIndex indexMO * a.1
    + set.m_moMatrix.entry (baseIndex + 1) indexMO * a.2.1
    + set.m_moMatrix.entry (baseIndex + 2) indexMO * a.2.2

/-- The six accumulators of the `pointD` loops (the loop body is the
same in both overloads: no deltas inside). -/
structure Acc6 where
  xx : ℝ
  yy : ℝ
  zz : ℝ
  xy : ℝ
  xz : ℝ
  yz : ℝ

/-- The primitive loop shared by the two `pointD` overloads. -/
noncomputable def shellSumD (set : GaussianSet) (basis : ℕ) (dr2 : ℝ) : Acc6 :=
  let lo := set.m_gtoIndices.getD basis 0
  let hi := set.m_gtoIndices.getD (basis + 1) 0
  let c0 := set.m_cIndices.getD basis 0
  (List.range (hi - lo)).foldl
    (fun a k =>
      let tmpGTO := Real.exp ((-set.m_gtoA.getD (lo + k) 0) * dr2)
      { xx := a.xx + set.m_gtoCN.getD (c0 + 6 * k) 0 * tmpGTO
        yy := a.yy + set.m_gtoCN.getD (c0 + 6 * k + 1) 0 * tmpGTO
        zz := a.zz + set.m_gtoCN.getD (c0 + 6 * k + 2) 0 * tmpGTO
        xy := a.xy + set.m_gtoCN.getD (c0 + 6 * k + 3) 0 * tmpGTO
        xz := a.xz + set.m_gtoCN.getD (c0 + 6 * k + 4) 0 * tmpGTO
        yz := a.yz + set.m_gtoCN.getD (c0 + 6 * k + 5) 0 * tmpGTO })
    ⟨0, 0, 0, 0, 0, 0⟩

/-- MO-mode `GaussianSet::pointD` with the ordering xx, yy, zz, xy, xz,
yz. -/
noncomputable def pointD (set : GaussianSet) (moIndex : ℕ) (delta : Vector3d) (dr2 : ℝ)
    (indexMO : ℕ) : ℝ :=
  let baseIndex := set.m_moIndices.getD moIndex 0
  let a := shellSumD set moIndex dr2
  set.m_moMatrix.entry baseIndex indexMO * delta.x * delta.x * a.xx
    + set.m_moMatrix.entry (baseIndex + 1) indexMO * delta.y * delta.y * a.yy
    + set.m_moMatrix.entry (baseIndex + 2) indexMO * delta.z * delta.z * a.zz
    + set.m_moMatrix.entry (baseIndex + 3) indexMO * delta.x * delta.y * a.xy
    + set.m_moMatrix.entry (baseIndex + 4) indexMO * delta.x * delta.z * a.xz
    + set.m_moMatrix.entry (baseIndex + 5) indexMO * delta.y * delta.z * a.yz

/-- The five accumulators of the `pointD5` loops (identical loop body in
both overloads). -/
structure Acc5 where
  d0 : ℝ
  d1p : ℝ
  d1n : ℝ
  d2p : ℝ
  d2n : ℝ

/-- The primitive loop shared by the two `pointD5` overloads. -/
noncomputable def shellSumD5 (set : GaussianSet) (basis : ℕ) (dr2 : ℝ) : Acc5 :=
  let lo := set.m_gtoIndices.getD basis 0
  let hi := set.m_gtoIndices.getD (basis + 1) 0
  let c0 := set.m_cIndices.getD basis 0
  (List.range (hi - lo)).foldl
    (fun a k =>
      let tmpGTO := Real.exp ((-set.m_gtoA.getD (lo + k) 0) * dr2)
      { d0 := a.d0 + set.m_gtoCN.getD (c0 + 5 * k) 0 * tmpGTO
        d1p := a.d1p + set.m_gtoCN.getD (c0 + 5 * k + 1) 0 * tmpGTO
        d1n := a.d1n + set.m_gtoCN.getD (c0 + 5 * k + 2) 0 * tmpGTO
        d2p := a.d2p + set.m_gtoCN.getD (c0 + 5 * k + 3) 0 * tmpGTO
        d2n := a.d2n + set.m_gtoCN.getD (c0 + 5 * k + 4) 0 * tmpGTO })
    ⟨0, 0, 0, 0, 0⟩

/-- MO-mode `GaussianSet::pointD5`: spherical components d0, d1+, d1-,
d2+, d2-. -/
noncomputable def pointD5 (set : GaussianSet) (moIndex : ℕ) (delta : Vector3d) (dr2 : ℝ)
    (indexMO : ℕ) : ℝ :=
  let baseIndex := set.m_moIndices.getD moIndex 0
  let a := shellSumD5 set moIndex dr2
  set.m_moMatrix.entry baseIndex indexMO * (delta.z * delta.z - dr2) * a.d0
    + set.m_moMatrix.entry (baseIndex + 1) indexMO * (delta.x * delta.z) * a.d1p
    + set.m_moMatrix.entry (baseIndex + 2) indexMO * (delta.y * delta.z) * a.d1n
    + set.m_moMatrix.entry (baseIndex + 3) indexMO * (delta.x * delta.x - delta.y * delta.y) * a.d2p
    + set.m_moMatrix.entry (baseIndex + 4) indexMO * (delta.x * delta.y) * a.d2n

/-- `GaussianSet::processPoint` with the cube-position lookup already
done: the worker converts the sample position (Ångström) to Bohr,
precomputes one delta and one squared distance per atom, and sums the
per-shell kernels selected by angular type (unlisted types contribute
nothing).  `state` is the 1-based MO index carried by the work item. -/
noncomputable def processPoint (set : GaussianSet) (posAng : Vector3d) (state : ℕ) : ℝ :=
  let indexMO := state - 1
  let pos := Vector3d.smul ANGSTROM_TO_BOHR posAng
  let deltas := (List.range set.m_numAtoms).map
    (fun i => pos.sub (atomPos set.m_molecule i))
  let dr2 := deltas.map Vector3d.squaredNorm
  (List.range set.m_symmetry.length).foldl
    (fun tmp i =>
      let cAtom := set.m_atomIndices.getD i 0
      match set.m_symmetry.getD i orbital.SP with
      | orbital.S => tmp + pointS set i (dr2.getD cAtom 0) indexMO
      | orbital.P => tmp + pointP set i (deltas.getD cAtom ⟨0, 0, 0⟩) (dr2.getD cAtom 0) indexMO
      | orbital.D => tmp + pointD set i (deltas.getD cAtom ⟨0, 0, 0⟩) (dr2.getD cAtom 0) indexMO
      | orbital.D5 => tmp + pointD5 set i (deltas.getD cAtom ⟨0, 0, 0⟩) (dr2.getD cAtom 0) indexMO
      | _ => tmp)
    0

/-- Density-mode `GaussianSet::pointS`: writes the shell's basis value
into row `m_moIndices[basis]` of the per-point column vector. -/
noncomputable def pointSdens (set : GaussianSet) (dr2 : ℝ) (basis : ℕ) (out : ℕ → ℝ) :
    ℕ → ℝ :=
  fun r => if r = set.m_moIndices.getD basis 0 then shellSumS set basis dr2 else out r

/-- The x/y/z accumulators of the density-mode `pointP` loop (no deltas
inside the loop in this overload). -/
noncomputable def shellSumPdens (set : GaussianSet) (basis : ℕ) (dr2 : ℝ) : ℝ × ℝ × ℝ :=
  let lo := set.m_gtoIndices.getD basis 0
  let hi := set.m_gtoIndices.getD (basis + 1) 0
  let c0 := set.m_cIndices.getD basis 0
  (List.range (hi - lo)).foldl
    (fun a k =>
      let tmpGTO := Real.exp ((-set.m_gtoA.getD (lo + k) 0) * dr2)
      (a.1 + set.m_gtoCN.getD (c0 + 3 * k) 0 * tmpGTO,
       a.2.1 + set.m_gtoCN.getD (c0 + 3 * k + 1) 0 * tmpGTO,
       a.2.2 + set.m_gtoCN.getD (c0 + 3 * k + 2) 0 * tmpGTO))
    (0, 0, 0)

/-- Density-mode `GaussianSet::pointP`. -/
noncomputable def pointPdens (set : GaussianSet) (delta : Vector3d) (dr2 : ℝ) (basis : ℕ)
    (out : ℕ → ℝ) : ℕ → ℝ :=
  let b := set.m_moIndices.getD basis 0
  let a := shellSumPdens set basis dr2
  fun r =>
    if r = b then a.1 * delta.x
    else if r = b + 1 then a.2.1 * delta.y
    else if r = b + 2 then a.2.2 * delta.z
    else out r

/-- Density-mode `GaussianSet::pointD`. -/
noncomputable def pointDdens (set : GaussianSet) (delta : Vector3d) (dr2 : ℝ) (basis : ℕ)
    (out : ℕ → ℝ) : ℕ → ℝ :=
  let b := set.m_moIndices.getD basis 0
  let a := shellSumD set basis dr2
  fun r =>
    if r = b then delta.x * delta.x * a.xx
    else if r = b + 1 then delta.y * delta.y * a.yy
    else if r = b + 2 then delta.z * delta.z * a.zz
    else if r = b + 3 then delta.x * delta.y * a.xy
    else if r = b + 4 then delta.x * delta.z * a.xz
    else if r = b + 5 then delta.y * delta.z * a.yz
    else out r

/-- Density-mode `GaussianSet::pointD5`. -/
noncomputable def pointD5dens (set : GaussianSet) (delta : Vector3d) (dr2 : ℝ) (basis : ℕ)
    (out : ℕ → ℝ) : ℕ → ℝ :=
  let b := set.m_moIndices.getD basis 0
  let a := shellSumD5 set basis dr2
  fun r =>
    if r = b then (delta.z * delta.z - dr2) * a.d0
    else if r = b + 1 then delta.x * delta.z * a.d1p
    else if r = b + 2 then delta.y * delta.z * a.d1n
    else if r = b + 3 then (delta.x * delta.x - delta.y * delta.y) * a.d2p
    else if r = b + 4 then delta.x * delta.y * a.d2n
    else out r

/-- `GaussianSet::processDensity` with the cube-position lookup already
done.  The per-point column vector `MatrixXd values(matrixSize, 1)` is
uninitialized in Eigen; the model starts it all-zero (only rows no
kernel writes — e.g. those of unhandled shell types — show that model
value).  The final double loop uses the lower triangle of the density
matrix. -/
noncomputable def processDensity (set : GaussianSet) (posAng : Vector3d) : ℝ :=
  let matrixSize := set.m_density.rows
  let pos := Vector3d.smul ANGSTROM_TO_BOHR posAng
  let deltas := (List.range set.m_numAtoms).map
    (fun i => pos.sub (atomPos set.m_molecule i))
  let dr2 := deltas.map Vector3d.squaredNorm
  let values := (List.range set.m_symmetry.length).foldl
    (fun v i =>
      let cAtom := set.m_atomIndices.getD i 0
      match set.m_symmetry.getD i orbital.SP with
      | orbital.S => pointSdens set (dr2.getD cAtom 0) i v
      | orbital.P => pointPdens set (deltas.getD cAtom ⟨0, 0, 0⟩) (dr2.getD cAtom 0) i v
      | orbital.D => pointDdens set (deltas.getD cAtom ⟨0, 0, 0⟩) (dr2.getD cAtom 0) i v
      | orbital.D5 => pointD5dens set (deltas.getD cAtom ⟨0, 0, 0⟩) (dr2.getD cAtom 0) i v
      | _ => v)
    (fun _ => 0)
  (List.range matrixSize).foldl
    (fun rho i =>
      ((List.range i).foldl
        (fun r j => r + 2 * set.m_density.entry i j * (values i * values j)) rho)
      + set.m_density.entry i i * (values i * values i))
    0

/-- Modelled from the spec: the cube's type tag (`cube.h` is not under
`src/`); the tags `gaussianset.cpp` sets are `Cube::MO` and
`Cube::ElectronDensity`, with an unset tag for a fresh cube. -/
inductive CubeType
  | unsetTag
  | MO
  | ElectronDensity
deriving DecidableEq, Repr

/-- Modelled from the spec: the Cube (`cube.h`/`cube.cpp` are not under
`src/`).  Origin and spacing in Ångström, dimensions, the linear sample
array and the type tag (§3).  The write lock is not part of this value;
whether a call acquires it is recorded in `CalcResult`. -/
structure Cube where
  origin : Vector3d
  spacing : Vector3d
  dim : ℕ × ℕ × ℕ
  data : List ℝ
  cubeType : CubeType

/-- Modelled from the spec: `Cube::position(i)` is
`origin + spacing ⊙ (ix, iy, iz)` with `(ix, iy, iz)` the row-major
decomposition of `i` (§3). -/
def Cube.position (c : Cube) (i : ℕ) : Vector3d :=
  let ny := c.dim.2.1
  let nz := c.dim.2.2
  let ix := i / (ny * nz)
  let iy := (i / nz) % ny
  let iz := i % nz
  ⟨c.origin.x + c.spacing.x * (ix : ℝ),
   c.origin.y + c.spacing.y * (iy : ℝ),
   c.origin.z + c.spacing.z * (iz : ℝ)⟩

/-- What one `calculateCube…` call observably does: the boolean it
returns, whether it called `lockForWrite` on the cube, how many
diagnostic lines it emitted, and the cube once the dispatched map has
completed (the map writes each sample exactly once, so its parallel
execution is this pure per-index map). -/
structure CalcResult where
  returned : Bool
  lockTaken : Bool
  diag : ℕ
  cube : Cube

/-- `GaussianSet::calculateCubeMO`: rejects a state outside
`[1, m_moMatrix.rows()]` before doing anything to the cube; otherwise
normalizes, locks the cube for write, tags it `MO` and maps
`processPoint` over all samples. -/
noncomputable def calculateCubeMO (gs : GaussianSet) (cube : Cube) (state : ℕ) : CalcResult :=
  if state < 1 ∨ gs.m_moMatrix.rows < state then ⟨false, false, 0, cube⟩
  else
    let r := initCalculation gs
    ⟨true, true, r.2,
      { cube with
        cubeType := CubeType.MO
        data := (List.range cube.data.length).map
          (fun i => processPoint r.1 (cube.position i) state) }⟩

/-- `GaussianSet::calculateCubeDensity`: when `m_density.size() == 0` it
emits one diagnostic and returns false before doing anything to the
cube; otherwise normalizes, locks, tags `ElectronDensity` and maps
`processDensity` over all samples. -/
noncomputable def calculateCubeDensity (gs : GaussianSet) (cube : Cube) : CalcResult :=
  if gs.m_density.rows * gs.m_density.cols = 0 then ⟨false, false, 1, cube⟩
  else
    let r := initCalculation gs
    ⟨true, true, r.2,
      { cube with
        cubeType := CubeType.ElectronDensity
        data := (List.range cube.data.length).map
          (fun i => processDensity r.1 (cube.position i)) }⟩

/-- `GaussianSet::clone`: builds a fresh `GaussianSet()` and copies the
listed members one by one.  `m_molecule` is not among them, so the clone
keeps the default constructor's empty molecule while inheriting
`m_numAtoms` and `m_init` from the original. -/
def clone (gs : GaussianSet) : GaussianSet :=
  { GaussianSet.new with
    m_symmetry := gs.m_symmetry
    m_atomIndices := gs.m_atomIndices
    m_moIndices := gs.m_moIndices
    m_gtoIndices := gs.m_gtoIndices
    m_cIndices := gs.m_cIndices
    m_gtoA := gs.m_gtoA
    m_gtoC := gs.m_gtoC
    m_gtoCN := gs.m_gtoCN
    m_moMatrix := gs.m_moMatrix
    m_density := gs.m_density
    m_numMOs := gs.m_numMOs
    m_numAtoms := gs.m_numAtoms
    m_init := gs.m_init }

/-- The value a successful `calculateCubeMO` stores at a sample whose
cube position is `posAng` (Ångström): the normalization pass followed by
the per-point kernel. -/
noncomputable def evalMO (gs : GaussianSet) (posAng : Vector3d) (state : ℕ) : ℝ :=
  processPoint (initCalculation gs).1 posAng state

/-- Modelled from the spec: the S kernel with the small-coefficient
shortcut removed, the reference point for §4.4's statement that the
shortcut is observable only in performance, not results. -/
noncomputable def pointSNoShortcut (set : GaussianSet) (moIndex : ℕ) (dr2 : ℝ)
    (indexMO : ℕ) : ℝ :=
  shellSumS set moIndex dr2 *
    set.m_moMatrix.entry (set.m_moIndices.getD moIndex 0) indexMO

/-- Modelled from the spec: `processPoint` with `pointSNoShortcut` in
place of `pointS` (the shortcut exists only in the S kernel; the P, D
and D5 kernels have none, so they are unchanged). -/
noncomputable def processPointNoShortcut (set : GaussianSet) (posAng : Vector3d)
    (state : ℕ) : ℝ :=
  let indexMO := state - 1
  let pos := Vector3d.smul ANGSTROM_TO_BOHR posAng
  let deltas := (List.range set.m_numAtoms).map
    (fun i => pos.sub (atomPos set.m_molecule i))
  let dr2 := deltas.map Vector3d.squaredNorm
  (List.range set.m_symmetry.length).foldl
    (fun tmp i =>
      let cAtom := set.m_atomIndices.getD i 0
      match set.m_symmetry.getD i orbital.SP with
      | orbital.S => tmp + pointSNoShortcut set i (dr2.getD cAtom 0) indexMO
      | orbital.P => tmp + pointP set i (deltas.getD cAtom ⟨0, 0, 0⟩) (dr2.getD cAtom 0) indexMO
      | orbital.D => tmp + pointD set i (deltas.getD cAtom ⟨0, 0, 0⟩) (dr2.getD cAtom 0) indexMO
      | orbital.D5 => tmp + pointD5 set i (deltas.getD cAtom ⟨0, 0, 0⟩) (dr2.getD cAtom 0) indexMO
      | _ => tmp)
    0

/-- The shortcut-free counterpart of `evalMO`. -/
noncomputable def evalMONoShortcut (gs : GaussianSet) (posAng : Vector3d) (state : ℕ) : ℝ :=
  processPointNoShortcut (initCalculation gs).1 posAng state

/-- True exactly for the angular types the normalization pass leaves
unimplemented: F, F7, G, G9, H, H11, I, I13. -/
def unhandledType : orbital → Bool
  | orbital.F => true
  | orbital.F7 => true
  | orbital.G => true
  | orbital.G9 => true
  | orbital.H => true
  | orbital.H11 => true
  | orbital.I => true
  | orbital.I13 => true
  | _ => false

/-- The bases reachable through the construction interface without ever
calling `addMOs`: built from the constructor by `addAtom`, `addBasis`,
`addGTO`, `setDensityMatrix` and normalization passes. -/
inductive BuiltWithoutMOs : GaussianSet → Prop
  | new : BuiltWithoutMOs GaussianSet.new
  | addAtom (pos : Vector3d) (z : ℤ) {gs : GaussianSet} :
      BuiltWithoutMOs gs → BuiltWithoutMOs (addAtom gs pos z)
  | addBasis (atom : ℕ) (type : orbital) {gs : GaussianSet} :
      BuiltWithoutMOs gs → BuiltWithoutMOs (addBasis gs atom type)
  | addGTO (c a : ℝ) {gs : GaussianSet} :
      BuiltWithoutMOs gs → BuiltWithoutMOs (addGTO gs c a)
  | setDensityMatrix (m : MatrixXd) {gs : GaussianSet} :
      BuiltWithoutMOs gs → BuiltWithoutMOs (setDensityMatrix gs m).1
  | initCalculation {gs : GaussianSet} :
      BuiltWithoutMOs gs → BuiltWithoutMOs (initCalculation gs).1

/-- One H atom at the origin, one S shell, one primitive with α = 1 and
c = 1, MO matrix `[1]` (the identity for one basis function): the basis
of the spec's scenarios A, 5 and 6. -/
noncomputable def gsS1 : GaussianSet :=
  addMOs (addGTO (addBasis (addAtom GaussianSet.new ⟨0, 0, 0⟩ 1) 0 orbital.S) 1 1) [1]

/-- One atom at the origin, one P shell with α = 1 and c = 1, MO
coefficients `(1, 0, 0)` for state 1: the basis of spec property 7. -/
noncomputable def gsP1 : GaussianSet :=
  addMOs (addGTO (addBasis (addAtom GaussianSet.new ⟨0, 0, 0⟩ 1) 0 orbital.P) 1 1) [1, 0, 0]

/-- A normalized one-S-shell basis whose atom sits away from the origin,
at (1, 0, 0): the input on which `clone` is exercised. -/
noncomputable def gsClone : GaussianSet :=
  (initCalculation
    (addMOs (addGTO (addBasis (addAtom GaussianSet.new ⟨1, 0, 0⟩ 1) 0 orbital.S) 1 1) [1])).1

/-- One F shell and nothing else on the atom. -/
def gsF : GaussianSet :=
  addBasis (addAtom GaussianSet.new ⟨0, 0, 0⟩ 1) 0 orbital.F

/-- An F shell followed by an S shell, one primitive each: the second
shell's MO offset shows how many columns the F shell reserved. -/
noncomputable def gsFS : GaussianSet :=
  addGTO (addBasis (addGTO (addBasis (addAtom GaussianSet.new ⟨0, 0, 0⟩ 1) 0 orbital.F) 1 1)
    0 orbital.S) 1 1

/-- Two S shells, so `m_numMOs = 2`; primitives are irrelevant to
`addMOs`. -/
def gsTwoS : GaussianSet :=
  addBasis (addBasis (addAtom GaussianSet.new ⟨0, 0, 0⟩ 1) 0 orbital.S) 0 orbital.S

/-- `addMOs` called twice: first with a full 2 × 2 coefficient block,
then with a single column. -/
noncomputable def gsMO2 : GaussianSet :=
  addMOs (addMOs gsTwoS [1, 2, 3, 4]) [5, 6]

/-- One S shell whose single MO coefficient, 5e-21, is below the 1e-20
small-coefficient threshold. -/
noncomputable def gsSmall : GaussianSet :=
  addMOs (addGTO (addBasis (addAtom GaussianSet.new ⟨0, 0, 0⟩ 1) 0 orbital.S) 1 1) [5e-21]

/-- A one-sample cube used to instantiate the cube-level theorems. -/
def cube0 : Cube :=
  ⟨⟨0, 0, 0⟩, ⟨1, 1, 1⟩, (1, 1, 1), [0], CubeType.unsetTag⟩

theorem Vector3d.sub_zero (v : Vector3d) : Vector3d.sub v ⟨0, 0, 0⟩ = v := by
  cases v
  simp [Vector3d.sub]

/-- The single-S-shell scenario basis evaluates, at any sample position,
to the normalized coefficient times the Gaussian of the Bohr-converted
squared distance. -/
theorem evalMO_gsS1_eq (p : Vector3d) :
    evalMO gsS1 p 1 =
      0.71270547 * Real.exp (-(Vector3d.squaredNorm (Vector3d.smul ANGSTROM_TO_BOHR p))) := by
  have h0 : evalMO gsS1 p 1 =
      0 + (if isSmall ((1 : ℝ)) then 0
        else (0 + 1 * (1 : ℝ) ^ (0.75 : ℝ) * 0.71270547 *
          Real.exp ((-(1 : ℝ)) * Vector3d.squaredNorm
            (Vector3d.sub (Vector3d.smul ANGSTROM_TO_BOHR p) ⟨0, 0, 0⟩))) * 1) := rfl
  rw [h0, if_neg (by norm_num [isSmall]), Vector3d.sub_zero, Real.one_rpow]
  ring_nf

/-- The single-P-shell scenario basis evaluates to the normalized
coefficient times the Bohr x-component times the Gaussian (the y and z
accumulators are weighted by the zero MO coefficients). -/
theorem evalMO_gsP1_eq (p : Vector3d) :
    evalMO gsP1 p 1 =
      1.425410941 * (Vector3d.smul ANGSTROM_TO_BOHR p).x *
        Real.exp (-Vector3d.squaredNorm (Vector3d.smul ANGSTROM_TO_BOHR p)) := by
  have h0 : evalMO gsP1 p 1 =
      (fun v : Vector3d =>
        0 + (1 * (0 + 1 * (1 : ℝ) ^ (1.25 : ℝ) * 1.425410941 * v.x *
              Real.exp ((-(1 : ℝ)) * v.squaredNorm))
          + 0 * (0 + 1 * (1 : ℝ) ^ (1.25 : ℝ) * 1.425410941 * v.y *
              Real.exp ((-(1 : ℝ)) * v.squaredNorm))
          + 0 * (0 + 1 * (1 : ℝ) ^ (1.25 : ℝ) * 1.425410941 * v.z *
              Real.exp ((-(1 : ℝ)) * v.squaredNorm))))
        (Vector3d.sub (Vector3d.smul ANGSTROM_TO_BOHR p) ⟨0, 0, 0⟩) := rfl
  rw [h0, Vector3d.sub_zero]
  simp only [Real.one_rpow]
  ring_nf

/-- Every builder reachable without `addMOs` leaves the MO matrix at its
default 0 × 0 shape. -/
theorem BuiltWithoutMOs_rows {gs : GaussianSet} (h : BuiltWithoutMOs gs) :
    gs.m_moMatrix.rows = 0 := by
  induction h with
  | new => rfl
  | addAtom pos z h ih => exact ih
  | addBasis atom type h ih => exact ih
  | addGTO c a h ih =>
      simp only [OpenQube.addGTO]
      split <;> exact ih
  | setDensityMatrix m h ih => exact ih
  | initCalculation h ih =>
      simp only [OpenQube.initCalculation]
      split
      · exact ih
      · exact ih

/-- C1.  For a basis with one atom at the origin, one S shell, one
primitive with exponent α = 1.0 and contraction coefficient c = 1.0, and
the identity MO matrix, the MO value computed for state 1 at a point at
distance r Bohr from the origin equals α^(3/4) · 0.71270547 · e^(−α·r²)
to within 1e-12 (in the real-number model the two agree exactly). -/
theorem analytic_S_value (p : Vector3d) (r : ℝ)
    (h : Vector3d.squaredNorm (Vector3d.smul ANGSTROM_TO_BOHR p) = r * r) :
    |evalMO gsS1 p 1 -
      (1 : ℝ) ^ ((3 : ℝ) / 4) * 0.71270547 * Real.exp (-(1 * (r * r)))| ≤ 1e-12 := by
  rw [evalMO_gsS1_eq p, h, Real.one_rpow]
  have hsame : (0.71270547 : ℝ) * Real.exp (-(r * r)) =
      1 * 0.71270547 * Real.exp (-(1 * (r * r))) := by
    ring_nf
  rw [hsame, sub_self, abs_zero]
  norm_num

/-- Witness for C1 at the origin (r = 0). -/
theorem analytic_S_value_witness :
    |evalMO gsS1 ⟨0, 0, 0⟩ 1 -
      (1 : ℝ) ^ ((3 : ℝ) / 4) * 0.71270547 * Real.exp (-(1 * ((0 : ℝ) * 0)))| ≤ 1e-12 :=
  analytic_S_value ⟨0, 0, 0⟩ 0 (by norm_num [Vector3d.smul, Vector3d.squaredNorm])

/-- C2.  For every cube and every stateIndex outside
`[1, numMOs()]` (with `numMOs()` the accessor, i.e. `m_moMatrix.rows()`),
`calculateCubeMO` returns false, does not take the cube's write lock and
leaves the cube unchanged. -/
theorem computeMO_out_of_range_rejected (gs : GaussianSet) (cube : Cube) (state : ℕ)
    (h : state < 1 ∨ GaussianSet.numMOs gs < state) :
    calculateCubeMO gs cube state = ⟨false, false, 0, cube⟩ := by
  simp only [calculateCubeMO]
  rw [if_pos]
  exact h

/-- Witness for C2: state 0 and state numMOs + 1 on a concrete basis and
cube. -/
theorem computeMO_out_of_range_rejected_witness :
    calculateCubeMO GaussianSet.new cube0 0 = ⟨false, false, 0, cube0⟩ ∧
    calculateCubeMO GaussianSet.new cube0 1 = ⟨false, false, 0, cube0⟩ :=
  ⟨computeMO_out_of_range_rejected GaussianSet.new cube0 0 (Or.inl (by norm_num)),
   computeMO_out_of_range_rejected GaussianSet.new cube0 1 (Or.inr (by decide))⟩

/-- C3.  The claim promises that `clone()` is an independent deep copy
whose evaluation outputs equal the original's at every point; but
`clone` never copies `m_molecule`, so on a normalized one-atom basis
whose atom is away from the origin the clone evaluates with an empty
molecule (its out-of-bounds atom reads modelled as an atom at the
origin) and its output differs from the original's. -/
theorem clone_loses_molecule :
    evalMO (clone gsClone) ⟨0, 0, 0⟩ 1 ≠ evalMO gsClone ⟨0, 0, 0⟩ 1 := by
  have horig : evalMO gsClone ⟨0, 0, 0⟩ 1 =
      0 + (if isSmall ((1 : ℝ)) then 0
        else (0 + 1 * (1 : ℝ) ^ (0.75 : ℝ) * 0.71270547 *
          Real.exp ((-(1 : ℝ)) * Vector3d.squaredNorm
            (Vector3d.sub (Vector3d.smul ANGSTROM_TO_BOHR ⟨0, 0, 0⟩) ⟨1, 0, 0⟩))) * 1) := rfl
  have hclone : evalMO (clone gsClone) ⟨0, 0, 0⟩ 1 =
      0 + (if isSmall ((1 : ℝ)) then 0
        else (0 + 1 * (1 : ℝ) ^ (0.75 : ℝ) * 0.71270547 *
          Real.exp ((-(1 : ℝ)) * Vector3d.squaredNorm
            (Vector3d.sub (Vector3d.smul ANGSTROM_TO_BOHR ⟨0, 0, 0⟩) ⟨0, 0, 0⟩))) * 1) := rfl
  rw [horig, hclone, if_neg (by norm_num [isSmall]), if_neg (by norm_num [isSmall])]
  simp only [Vector3d.smul, Vector3d.sub, Vector3d.squaredNorm, Real.one_rpow]
  norm_num

/-- C4 (amended).  `addAtom`, `addBasis` and `addMOs` clear the
normalized flag `m_init`; `addGTO` and `setDensityMatrix` leave it
unchanged, so those two do not by themselves force re-normalization. -/
theorem mutators_normalized_flag (gs : GaussianSet) (pos : Vector3d) (z : ℤ)
    (atom : ℕ) (type : orbital) (MOs : List ℝ) (c a : ℝ) (m : MatrixXd) :
    (addAtom gs pos z).m_init = false ∧
    (addBasis gs atom type).m_init = false ∧
    (addMOs gs MOs).m_init = false ∧
    (addGTO gs c a).m_init = gs.m_init ∧
    ((setDensityMatrix gs m).1).m_init = gs.m_init := by
  refine ⟨rfl, rfl, rfl, ?_, rfl⟩
  simp only [addGTO]
  split <;> rfl

/-- Counterexample to C4 as stated: on a normalized basis, `addGTO` and
`setDensityMatrix` leave the normalized flag set. -/
theorem addGTO_setDensityMatrix_keep_init :
    (addGTO gsClone 1 1).m_init = true ∧
    ((setDensityMatrix gsClone MatrixXd.empty).1).m_init = true := by
  constructor <;> rfl

/-- C5 (amended).  For every shell of angular type F or higher the
normalization pass reserves 13 MO-column slots — the switch's missing
breaks leave `skip = 13` for every such type, not
`componentsPerShell(type)` — pushes no normalized coefficients for it,
and emits one diagnostic for the shell. -/
theorem initShell_unhandled_reserves_13 (gs : GaussianSet) (gi : List ℕ) (i : ℕ)
    (acc : InitAcc) (h : unhandledType (gs.m_symmetry.getD i orbital.SP) = true) :
    initShell gs gi i acc =
      { indexMO := acc.indexMO + 13
        moIndices := acc.moIndices ++ [acc.indexMO]
        cIndices := acc.cIndices ++ [acc.gtoCN.length]
        gtoCN := acc.gtoCN
        diag := acc.diag + 1 } := by
  unfold initShell
  cases h' : gs.m_symmetry.getD i orbital.SP <;> rw [h'] at h <;>
    first
      | rfl
      | exact absurd h (by decide)

/-- Witness for C5 (amended) on a concrete one-F-shell basis. -/
theorem initShell_unhandled_reserves_13_witness :
    initShell gsF [0, 0] 0 ⟨0, [], [], [], 0⟩ = ⟨13, [0], [0], [], 1⟩ := by
  have h := initShell_unhandled_reserves_13 gsF [0, 0] 0 ⟨0, [], [], [], 0⟩ rfl
  simpa using h

/-- Counterexample to C5 as stated: after normalizing a basis with an F
shell followed by an S shell, the S shell's MO offset is 13, not the 8
that `componentsPerShell(F)` would give. -/
theorem unhandled_F_reserves_13_not_8 :
    (initCalculation gsFS).1.m_moIndices.getD 1 0 = 13 ∧
    (initCalculation gsFS).1.m_moIndices.getD 1 0 ≠ 8 :=
  ⟨rfl, by decide⟩

/-- C6 (amended).  After `addMOs` the MO matrix is square
`numMOs × numMOs`; the input is interpreted column-major with column
count `len / numMOs` and fills exactly those columns; every entry
outside them is whatever the resize left there (the previous matrix's
entry in the model; in Eigen, preserved when the matrix was already
`numMOs × numMOs` and uninitialized otherwise), not necessarily zero. -/
theorem addMOs_moMatrix_shape (gs : GaussianSet) (MOs : List ℝ) :
    (addMOs gs MOs).m_moMatrix.rows = gs.m_numMOs ∧
    (addMOs gs MOs).m_moMatrix.cols = gs.m_numMOs ∧
    (∀ i j, i < gs.m_numMOs → j < MOs.length / gs.m_numMOs →
      (addMOs gs MOs).m_moMatrix.entry i j = MOs.getD (i + j * gs.m_numMOs) 0) ∧
    (∀ i j, ¬(i < gs.m_numMOs ∧ j < MOs.length / gs.m_numMOs) →
      (addMOs gs MOs).m_moMatrix.entry i j = gs.m_moMatrix.entry i j) := by
  refine ⟨rfl, rfl, ?_, ?_⟩
  · intro i j hi hj
    simp only [addMOs]
    rw [if_pos ⟨hi, hj⟩]
  · intro i j hnot
    simp only [addMOs]
    rw [if_neg hnot]
    rfl

/-- Counterexample to C6 as stated: calling `addMOs` a second time with
a single column leaves the second column of the already-square matrix at
its previous (nonzero) values, so a column beyond `len / numMOs` is not
all zeros. -/
theorem addMOs_leftover_column_nonzero : gsMO2.m_moMatrix.entry 0 1 ≠ 0 := by
  show (3 : ℝ) ≠ 0
  norm_num

/-- C7.  For the one-P-shell basis with MO coefficients (1, 0, 0), the
state-1 value at (d, 0, 0) is the negation of the value at (−d, 0, 0),
and the value at (0, d, 0) and at (0, 0, d) is zero. -/
theorem pShell_symmetry (d : ℝ) :
    evalMO gsP1 ⟨d, 0, 0⟩ 1 = -evalMO gsP1 ⟨-d, 0, 0⟩ 1 ∧
    evalMO gsP1 ⟨0, d, 0⟩ 1 = 0 ∧ evalMO gsP1 ⟨0, 0, d⟩ 1 = 0 := by
  refine ⟨?_, ?_, ?_⟩ <;>
    simp only [evalMO_gsP1_eq] <;>
    simp only [Vector3d.smul, Vector3d.squaredNorm] <;>
    ring_nf

/-- C8 (amended).  The small-coefficient shortcut exists only in the
MO-mode S kernel; whenever no S shell's selected MO coefficient has
magnitude below 1e-20, the per-point MO value with the shortcut equals
the value computed without it (the counterexample shows it does change
the value when a coefficient is below the threshold). -/
theorem shortcut_agrees_when_not_small (set : GaussianSet) (posAng : Vector3d) (state : ℕ)
    (h : ∀ i, i < set.m_symmetry.length →
      set.m_symmetry.getD i orbital.SP = orbital.S →
      ¬isSmall (set.m_moMatrix.entry (set.m_moIndices.getD i 0) (state - 1))) :
    processPoint set posAng state = processPointNoShortcut set posAng state := by
  unfold processPoint processPointNoShortcut
  apply List.foldl_ext
  intro tmp i hi
  have hi' : i < set.m_symmetry.length := List.mem_range.mp hi
  cases ht : set.m_symmetry.getD i orbital.SP <;> try rfl
  case S =>
    have hns := h i hi' ht
    simp only [ht, pointS, pointSNoShortcut]
    rw [if_neg hns]

/-- Witness for C8 (amended) on the normalized one-S-shell basis with
coefficient 1. -/
theorem shortcut_agrees_when_not_small_witness :
    processPoint (initCalculation gsS1).1 ⟨0, 0, 0⟩ 1 =
      processPointNoShortcut (initCalculation gsS1).1 ⟨0, 0, 0⟩ 1 := by
  apply shortcut_agrees_when_not_small
  intro i hi hS
  have hi0 : i = 0 := by
    have hlen : (initCalculation gsS1).1.m_symmetry.length = 1 := rfl
    omega
  subst hi0
  show ¬isSmall ((1 : ℝ))
  norm_num [isSmall]

/-- Counterexample to C8 as stated: with an S-shell MO coefficient of
5e-21 the shortcut returns 0 while the shortcut-free kernel returns a
nonzero value, so the shortcut is observable in results. -/
theorem shortcut_changes_small_coefficient_value :
    evalMO gsSmall ⟨0, 0, 0⟩ 1 ≠ evalMONoShortcut gsSmall ⟨0, 0, 0⟩ 1 := by
  have h1 : evalMO gsSmall ⟨0, 0, 0⟩ 1 =
      0 + (if isSmall ((5e-21 : ℝ)) then 0
        else (0 + 1 * (1 : ℝ) ^ (0.75 : ℝ) * 0.71270547 *
          Real.exp ((-(1 : ℝ)) * Vector3d.squaredNorm
            (Vector3d.sub (Vector3d.smul ANGSTROM_TO_BOHR ⟨0, 0, 0⟩) ⟨0, 0, 0⟩))) *
          (5e-21 : ℝ)) := rfl
  have h2 : evalMONoShortcut gsSmall ⟨0, 0, 0⟩ 1 =
      0 + (0 + 1 * (1 : ℝ) ^ (0.75 : ℝ) * 0.71270547 *
        Real.exp ((-(1 : ℝ)) * Vector3d.squaredNorm
          (Vector3d.sub (Vector3d.smul ANGSTROM_TO_BOHR ⟨0, 0, 0⟩) ⟨0, 0, 0⟩))) *
        (5e-21 : ℝ) := rfl
  rw [h1, h2, if_pos (by norm_num [isSmall])]
  simp only [Vector3d.smul, Vector3d.sub, Vector3d.squaredNorm, Real.one_rpow]
  norm_num

/-- C9.  `calculateCubeDensity` on a basis whose density matrix is empty
(no `setDensityMatrix` has installed one) returns false, emits one
diagnostic, takes no lock and leaves the cube unchanged. -/
theorem computeDensity_without_density_matrix (gs : GaussianSet) (cube : Cube)
    (h : gs.m_density.rows * gs.m_density.cols = 0) :
    calculateCubeDensity gs cube = ⟨false, false, 1, cube⟩ := by
  simp only [calculateCubeDensity]
  rw [if_pos h]

/-- Witness for C9 on a fresh basis and a concrete cube. -/
theorem computeDensity_without_density_matrix_witness :
    calculateCubeDensity GaussianSet.new cube0 = ⟨false, false, 1, cube0⟩ :=
  computeDensity_without_density_matrix GaussianSet.new cube0 rfl

/-- C10.  `numMOs()` returns the row count of the MO matrix, so on every
basis built without `addMOs` it returns 0 even when shells have been
added, and `calculateCubeMO` returns false for every state index. -/
theorem numMOs_zero_before_addMOs (gs : GaussianSet) (h : BuiltWithoutMOs gs) :
    GaussianSet.numMOs gs = 0 ∧
    ∀ (cube : Cube) (state : ℕ), (calculateCubeMO gs cube state).returned = false := by
  have hrows : gs.m_moMatrix.rows = 0 := BuiltWithoutMOs_rows h
  constructor
  · exact hrows
  · intro cube state
    have hcond : state < 1 ∨ gs.m_moMatrix.rows < state := by
      rcases Nat.eq_zero_or_pos state with h0 | h1
      · exact Or.inl (by omega)
      · exact Or.inr (by omega)
    simp only [calculateCubeMO]
    rw [if_pos hcond]

/-- Witness for C10: a basis with an F and an S shell (so
`m_numMOs = 9`) on which `addMOs` was never called still reports
`numMOs() = 0` and rejects state 1. -/
theorem numMOs_zero_before_addMOs_witness :
    GaussianSet.numMOs gsFS = 0 ∧ gsFS.m_numMOs = 9 ∧
    (calculateCubeMO gsFS cube0 1).returned = false := by
  have hb : BuiltWithoutMOs gsFS :=
    BuiltWithoutMOs.addGTO 1 1 (BuiltWithoutMOs.addBasis 0 orbital.S
      (BuiltWithoutMOs.addGTO 1 1 (BuiltWithoutMOs.addBasis 0 orbital.F
        (BuiltWithoutMOs.addAtom ⟨0, 0, 0⟩ 1 BuiltWithoutMOs.new))))
  have h := numMOs_zero_before_addMOs gsFS hb
  exact ⟨h.1, rfl, h.2 cube0 1⟩

end OpenQube
